import Mathlib

/-!

  # Registration client auth core — shallow embedding

  This file embeds the token-lifecycle core of the Registration repository's
  JS client and proves the frozen specification claims against it.

  Embedded source units:

  * `AuthInfo` — the token value class (`src/js/.../stores/AuthInfo.js`
    variant with `accountId`/`email`): internal `expiresAt` is a JS `Date`,
    modelled as epoch milliseconds (`Option Int`); `toJSON` emits epoch
    seconds (`Math.floor(getTime() / 1000)`), and the constructor converts a
    numeric (seconds) input back with `new Date(n * 1000)`.
  * `AuthStoreState` — the `AuthStore` class of the observable variant
    (`markInvalid` / `setAuthInfo` / `refresh`), fields `authInfo`,
    `_invalid`, `_loaded`, plus the local-storage slot it persists into.
  * `MailboxAuthStore` — the promise-mailbox `AuthStore` variant
    (`attemptRefresh` / `load` / storage listener).  JS is single threaded
    and the mailbox chains every mutating operation behind the previous
    one, so a run of N concurrent `attemptRefresh` calls is modelled as a
    sequential fold of the queued operations over the state.
  * `setAuthHeader` — the authorization middleware's header logic; the
    `new URL(url, window.location.href).origin` computation is abstracted
    to the resolved origin string of the request.
  * `AccountStoreState` — the `AccountStore` with the bounded WebAuthn
    retry counter (`WEBAUTHN_MAX_FAIL_COUNT`).

  Network effects are parameters: the token-endpoint exchange outcome is an
  explicit argument (`ExchangeOutcome`, or `AuthInfo → Option AuthInfo`
  where the mailbox variant treats an OAuth2 error body as `none`), and
  each operation additionally reports how many exchange requests it sent.
  JS truthiness of token strings (empty string is falsy) is modelled
  explicitly via `strTruthy`.

-/

namespace Registration

/-- JS truthiness of `string | null | undefined`: `null`, `undefined` and
the empty string are falsy. -/
def strTruthy : Option String → Bool
  | none => false
  | some s => !s.isEmpty

/-- Token record (class `AuthInfo` in `stores/AuthInfo.js`): `expiresAt` is
the internal `Date`, held as epoch milliseconds. -/
structure AuthInfo where
  tokenType : String
  accessToken : String
  refreshToken : Option String := none
  expiresAt : Option Int := none
  scope : Option String := none
  accountId : Option String := none
  email : Option String := none
deriving DecidableEq, Repr

/-- The JSON object shape persisted by `AuthInfo.toJSON`: `expiresAt` in
epoch seconds, every other field verbatim (nullable fields as `Option`). -/
structure AuthInfoJSON where
  tokenType : String
  accessToken : String
  refreshToken : Option String := none
  expiresAt : Option Int := none
  scope : Option String := none
  accountId : Option String := none
  email : Option String := none
deriving DecidableEq, Repr

/-- `AuthInfo.toJSON`: `expiresAt` becomes
`Math.floor(this.expiresAt.getTime() / 1000)` (floor division of the
millisecond time), all other fields are copied. -/
def AuthInfo.toJSON (a : AuthInfo) : AuthInfoJSON where
  tokenType := a.tokenType
  accessToken := a.accessToken
  refreshToken := a.refreshToken
  expiresAt := a.expiresAt.map (fun ms => Int.fdiv ms 1000)
  scope := a.scope
  accountId := a.accountId
  email := a.email

/-- The `AuthInfo` constructor applied to the parsed JSON fields: a numeric
`expiresAt` (epoch seconds) becomes `new Date(expiresAt * 1000)`. -/
def AuthInfo.ofJSON (j : AuthInfoJSON) : AuthInfo where
  tokenType := j.tokenType
  accessToken := j.accessToken
  refreshToken := j.refreshToken
  expiresAt := j.expiresAt.map (fun sec => sec * 1000)
  scope := j.scope
  accountId := j.accountId
  email := j.email

/-- A value found in the local-storage slot: either a payload that fails
`JSON.parse` or the schema validation, or a well-formed record object. -/
inductive StoredValue where
  | malformed
  | record (j : AuthInfoJSON)
deriving DecidableEq, Repr

/-- `AuthInfo.createFromObject`: schema-validating parse, `null` (here
`none`) on malformed payloads. -/
def createFromObject : StoredValue → Option AuthInfo
  | .malformed => none
  | .record j => some (AuthInfo.ofJSON j)

/-- `AuthInfo.getIsExpired` of the `stores/AuthInfo.js` class:
`this.expiresAt != null && now >= this.expiresAt.getTime()` with `now` in
milliseconds. -/
def AuthInfo.getIsExpired (a : AuthInfo) (now : Int) : Bool :=
  match a.expiresAt with
  | none => false
  | some e => decide (e ≤ now)

/-- The fixed local-storage key (`LOCAL_STORAGE_KEY`). -/
def LOCAL_STORAGE_KEY : String := "oes-auth-data-v1"

/-- `saveAuthInfo`: serialize the record into the storage slot, or remove
the entry when the record is `null`. -/
def saveAuthInfo (info : Option AuthInfo) : Option StoredValue :=
  info.map (fun i => StoredValue.record i.toJSON)

/-- `loadAuthInfo`: read the storage slot and parse it, `null` when the
slot is empty or the payload is malformed. -/
def loadAuthInfo (slot : Option StoredValue) : Option AuthInfo :=
  slot.bind createFromObject

/-- Whether `this.authInfo?.refreshToken` is truthy. -/
def hasRefreshToken (info : Option AuthInfo) : Bool :=
  strTruthy (info.bind AuthInfo.refreshToken)

/-! ## The observable `AuthStore` (`markInvalid` / `refresh` variant) -/

/-- State of the observable `AuthStore` class: the in-memory record, the
`_invalid` flag, the `_loaded` flag, and the local-storage slot its
`saveAuthInfo` writes into. -/
structure AuthStoreState where
  authInfo : Option AuthInfo := none
  invalid : Bool := false
  loaded : Bool := false
  storage : Option StoredValue := none
deriving DecidableEq, Repr

/-- `AuthStore.setAuthInfo`: clear `_invalid`, replace the record, persist
it (or clear the persisted entry for `null`). -/
def AuthStoreState.setAuthInfo (s : AuthStoreState) (info : Option AuthInfo) :
    AuthStoreState :=
  { s with invalid := false, authInfo := info, storage := saveAuthInfo info }

/-- `AuthStore.markInvalid`: set `_invalid` and report `true` iff the given
token is the current record's access token and `_invalid` was not already
set. -/
def AuthStoreState.markInvalid (s : AuthStoreState) (accessToken : String) :
    Bool × AuthStoreState :=
  if s.authInfo.map AuthInfo.accessToken = some accessToken ∧ s.invalid = false then
    (true, { s with invalid := true })
  else
    (false, s)

/-- Outcome of one refresh-token exchange against the token endpoint. -/
inductive ExchangeOutcome where
  | success (info : AuthInfo)
  | oauthError
  | thrown
deriving DecidableEq, Repr

/-- Result of running `AuthStore.refresh`: the post state, the settled
value (`Except.error` modelling a rejected promise), and the number of
exchange requests sent to the token endpoint. -/
structure RefreshRun where
  state : AuthStoreState
  result : Except Unit (Option AuthInfo)
  exchanges : Nat
deriving Repr

/-- `AuthStore.refresh`: short-circuit to `setAuthInfo(null)` without a
network call when no (truthy) refresh token is held; otherwise perform the
exchange — an explicit OAuth2 error body clears state and resolves `null`,
a successful response is stored and returned, and an exception thrown
during the exchange propagates (there is no `try`/`catch`), leaving the
state untouched. -/
def AuthStoreState.refresh (s : AuthStoreState) (outcome : ExchangeOutcome) :
    RefreshRun :=
  if hasRefreshToken s.authInfo then
    match outcome with
    | .thrown => ⟨s, .error (), 1⟩
    | .oauthError => ⟨s.setAuthInfo none, .ok none, 1⟩
    | .success info => ⟨s.setAuthInfo (some info), .ok (some info), 1⟩
  else
    ⟨s.setAuthInfo none, .ok none, 0⟩

/-! ## The promise-mailbox `AuthStore` variant -/

/-- State of the mailbox `AuthStore`: the in-memory record and the
local-storage slot.  The chained `authInfoPromise` serializes all mutating
operations, so runs are modelled as sequential folds. -/
structure MailboxAuthStore where
  authInfo : Option AuthInfo := none
  storage : Option StoredValue := none
deriving DecidableEq, Repr

/-- The mailbox variant's `setAuthInfo` (queued state effect): replace the
record and persist it. -/
def MailboxAuthStore.setAuthInfo (s : MailboxAuthStore) (info : Option AuthInfo) :
    MailboxAuthStore :=
  { s with authInfo := info, storage := saveAuthInfo info }

/-- The private `_refresh(authToken)`: `null` with no network call when the
record has no (truthy) refresh token, otherwise one exchange whose parsed
result is the environment's answer (`none` models an explicit OAuth2 error
body).  Returns the result together with the number of exchange requests
sent. -/
def refreshExchange (exch : AuthInfo → Option AuthInfo) (authToken : AuthInfo) :
    Option AuthInfo × Nat :=
  if strTruthy authToken.refreshToken then (exch authToken, 1) else (none, 0)

/-- One queued `attemptRefresh(authInfo)` operation: bail out returning the
current record when its access token no longer equals the caller's token
(`curAuthInfo?.accessToken != authInfo.accessToken`), otherwise run
`_refresh` on the current record, store and persist its result, and return
it.  The third component counts exchange requests sent. -/
def attemptRefreshOp (exch : AuthInfo → Option AuthInfo) (authInfo : AuthInfo)
    (s : MailboxAuthStore) : MailboxAuthStore × Option AuthInfo × Nat :=
  match s.authInfo with
  | some cur =>
    if cur.accessToken = authInfo.accessToken then
      let r := refreshExchange exch cur
      (s.setAuthInfo r.1, r.1, r.2)
    else
      (s, some cur, 0)
  | none => (s, none, 0)

/-- Run `n` queued `attemptRefresh(authInfo)` operations in FIFO order,
collecting each caller's observed result and the total number of exchange
requests sent. -/
def runAttempts (exch : AuthInfo → Option AuthInfo) (authInfo : AuthInfo) :
    Nat → MailboxAuthStore → MailboxAuthStore × List (Option AuthInfo) × Nat
  | 0, s => (s, [], 0)
  | n + 1, s =>
    let step := attemptRefreshOp exch authInfo s
    let rest := runAttempts exch authInfo n step.1
    (rest.1, step.2.1 :: rest.2.1, step.2.2 + rest.2.2)

/-- `AuthStore.load` of the mailbox variant: parse the storage slot; adopt
a non-expired record as-is; run `_refresh` on an expired one and adopt only
a successful result; return `null` when nothing usable is stored.  The
third component counts exchange requests sent. -/
def MailboxAuthStore.load (now : Int) (exch : AuthInfo → Option AuthInfo)
    (s : MailboxAuthStore) : MailboxAuthStore × Option AuthInfo × Nat :=
  match loadAuthInfo s.storage with
  | some loaded =>
    if loaded.getIsExpired now then
      let r := refreshExchange exch loaded
      match r.1 with
      | some refreshed => (s.setAuthInfo (some refreshed), some refreshed, r.2)
      | none => (s, none, r.2)
    else
      (s.setAuthInfo (some loaded), some loaded, 0)
  | none => (s, none, 0)

/-- The constructor's `storage` event listener of the mailbox variant:
when the event key is the auth storage key and a new value is present,
parse it; a record that parses and is not expired is adopted via
`setAuthInfo`, anything else is ignored. -/
def MailboxAuthStore.handleStorageEvent (now : Int) (s : MailboxAuthStore)
    (key : String) (newValue : Option StoredValue) : MailboxAuthStore :=
  if key = LOCAL_STORAGE_KEY then
    match newValue with
    | some v =>
      match createFromObject v with
      | some loaded =>
        if loaded.getIsExpired now then s else s.setAuthInfo (some loaded)
      | none => s
    | none => s
  else s

/-! ## Authorization middleware -/

/-- Request options as far as the middleware observes them: the header
list.  `Headers.set` replaces any existing entry for the name. -/
structure RequestOpts where
  headers : List (String × String) := []
deriving DecidableEq, Repr

/-- The effect of `Headers.set name value` on a header list. -/
def headersSet (hs : List (String × String)) (name value : String) :
    List (String × String) :=
  hs.filter (fun p => p.1 ≠ name) ++ [(name, value)]

/-- `setAuthHeader` (`authMiddleware.ts`): when the request URL's resolved
origin equals the protected base origin and a (truthy) access token is
held, return the options with `Authorization: Bearer <token>` set;
otherwise return the options unmodified. -/
def setAuthHeader (baseOrigin : String) (accessToken : Option String)
    (urlOrigin : String) (opts : RequestOpts) : RequestOpts :=
  match accessToken with
  | some token =>
    if urlOrigin = baseOrigin ∧ token.isEmpty = false then
      { opts with headers := headersSet opts.headers "Authorization" ("Bearer " ++ token) }
    else opts
  | none => opts

/-! ## The `AccountStore` with bounded WebAuthn retries -/

/-- Number of times WebAuthn will be tried (`WEBAUTHN_MAX_FAIL_COUNT`). -/
def WEBAUTHN_MAX_FAIL_COUNT : Nat := 2

/-- State of the `AccountStore`: the session failure counter, the
local-storage credential-id slot, and the backing mailbox auth store. -/
structure AccountStoreState where
  webAuthnFailCount : Nat := 0
  storedCredentialId : Option String := none
  authStore : MailboxAuthStore := {}
deriving DecidableEq, Repr

/-- `getSavedWebAuthnCredentialId`: read the credential-id slot, mapping a
falsy (missing or empty) value to `null`. -/
def AccountStoreState.getSavedWebAuthnCredentialId (s : AccountStoreState) :
    Option String :=
  match s.storedCredentialId with
  | some id => if id.isEmpty then none else some id
  | none => none

/-- Result of `AccountStore.authenticate`: the `AuthInfo`, `false` on an
error, or `null` when authentication was not possible. -/
inductive AuthenticateResult where
  | info (r : AuthInfo)
  | failed
  | nullResult
deriving DecidableEq, Repr

/-- `AccountStore.authenticate`: try WebAuthn only when the browser
supports it, a saved credential id exists, and the session failure count is
below `WEBAUTHN_MAX_FAIL_COUNT`.  A failed ceremony (`outcome = none`)
increments the counter and clears the saved credential id once the bound is
reached; a successful one stores the record.  Otherwise resolve `null`.
The third component counts WebAuthn ceremonies attempted. -/
def AccountStoreState.authenticate (hasWebAuthn : Bool)
    (outcome : Option AuthInfo) (s : AccountStoreState) :
    AccountStoreState × AuthenticateResult × Nat :=
  let credId := s.getSavedWebAuthnCredentialId
  let useWebAuthn := hasWebAuthn && credId.isSome &&
    decide (s.webAuthnFailCount < WEBAUTHN_MAX_FAIL_COUNT)
  if useWebAuthn then
    match outcome with
    | some r =>
      ({ s with authStore := s.authStore.setAuthInfo (some r) }, .info r, 1)
    | none =>
      let c := s.webAuthnFailCount + 1
      ({ s with
          webAuthnFailCount := c,
          storedCredentialId :=
            if WEBAUTHN_MAX_FAIL_COUNT ≤ c then none else s.storedCredentialId },
        .failed, 1)
  else
    (s, .nullResult, 0)

/-! ## Sample values used by witnesses and counterexamples -/

/-- A record with no refresh token. -/
def sampleAuth : AuthInfo := { tokenType := "Bearer", accessToken := "tok-a" }

/-- A store currently holding `sampleAuth`. -/
def sampleStore : AuthStoreState := { authInfo := some sampleAuth }

/-- A record carrying a refresh token. -/
def sampleRT : AuthInfo :=
  { tokenType := "Bearer", accessToken := "tok-d", refreshToken := some "rt-d" }

/-- A store currently holding `sampleRT`, mirrored to storage. -/
def sampleStoreRT : AuthStoreState :=
  { authInfo := some sampleRT, storage := saveAuthInfo (some sampleRT) }

/-! ## Claim theorems -/

/-- C2: `markInvalid(t)` returns `true` only the first time for a token
value: when `t` is the current record's access token and the invalid flag
is clear, the first call returns `true` and an immediately following second
call with the same token value returns `false`. -/
theorem markInvalid_true_then_false (s : AuthStoreState) (t : String)
    (htok : s.authInfo.map AuthInfo.accessToken = some t)
    (hinv : s.invalid = false) :
    (s.markInvalid t).1 = true ∧
      (((s.markInvalid t).2).markInvalid t).1 = false := by
  unfold AuthStoreState.markInvalid
  simp [htok, hinv]

/-- Witness for C2 at the concrete store `sampleStore` and its token. -/
theorem markInvalid_true_then_false_witness :
    (sampleStore.markInvalid "tok-a").1 = true ∧
      (((sampleStore.markInvalid "tok-a").2).markInvalid "tok-a").1 = false :=
  markInvalid_true_then_false sampleStore "tok-a" rfl rfl

/-- C10: after `setAuthInfo(r)` with a non-null record, the invalid flag is
cleared, so `markInvalid(r.accessToken)` returns `true` from any prior
state — even one where that same token value had already been marked
invalid. -/
theorem markInvalid_true_after_setAuthInfo (s : AuthStoreState) (r : AuthInfo) :
    ((s.setAuthInfo (some r)).markInvalid r.accessToken).1 = true := by
  unfold AuthStoreState.setAuthInfo AuthStoreState.markInvalid
  simp

/-- C4: with no refresh token on the current record, `refresh()` clears the
in-memory record and the persisted entry, resolves to `null`, and sends no
request to the token endpoint, whatever the network environment would have
answered. -/
theorem refresh_no_token_short_circuit (s : AuthStoreState) (r : AuthInfo)
    (outcome : ExchangeOutcome) (hrec : s.authInfo = some r)
    (hno : r.refreshToken = none) :
    (s.refresh outcome).result = .ok none ∧
    (s.refresh outcome).state.authInfo = none ∧
    (s.refresh outcome).state.storage = none ∧
    (s.refresh outcome).exchanges = 0 := by
  have h : hasRefreshToken s.authInfo = false := by
    simp [hasRefreshToken, hrec, hno, strTruthy]
  unfold AuthStoreState.refresh
  simp [h, AuthStoreState.setAuthInfo, saveAuthInfo]

/-- Witness for C4 at the concrete store `sampleStore` (whose record has no
refresh token). -/
theorem refresh_no_token_short_circuit_witness :
    (sampleStore.refresh .thrown).result = .ok none ∧
    (sampleStore.refresh .thrown).state.authInfo = none ∧
    (sampleStore.refresh .thrown).state.storage = none ∧
    (sampleStore.refresh .thrown).exchanges = 0 :=
  refresh_no_token_short_circuit sampleStore sampleAuth .thrown rfl rfl

/-- C3 counterexample: on a store holding a refresh token, an exception
thrown during the exchange (a network-level failure) makes `refresh()`
reject instead of resolving to `null`, and the state is not cleared — the
claim's "on any error … clears the store's state … and resolves to null"
is false at this input. -/
theorem refresh_thrown_rejects_counterexample :
    (sampleStoreRT.refresh .thrown).result = .error () ∧
    (sampleStoreRT.refresh .thrown).state = sampleStoreRT ∧
    sampleStoreRT.authInfo ≠ none :=
  ⟨rfl, rfl, by decide⟩

/-- C3 amended: when a refresh token is present, an explicit provider error
response makes `refresh()` clear the store (memory and persisted entry) and
resolve to `null`; an exception thrown during the exchange is not caught —
`refresh()` rejects and the state is left unchanged. -/
theorem refresh_failure_semantics (s : AuthStoreState)
    (h : hasRefreshToken s.authInfo = true) :
    (s.refresh .oauthError).result = .ok none ∧
    (s.refresh .oauthError).state.authInfo = none ∧
    (s.refresh .oauthError).state.storage = none ∧
    (s.refresh .thrown).result = .error () ∧
    (s.refresh .thrown).state = s := by
  unfold AuthStoreState.refresh
  simp [h, AuthStoreState.setAuthInfo, saveAuthInfo]

/-- Witness for the amended C3 at the concrete store `sampleStoreRT`. -/
theorem refresh_failure_semantics_witness :
    (sampleStoreRT.refresh .oauthError).result = .ok none ∧
    (sampleStoreRT.refresh .oauthError).state.authInfo = none ∧
    (sampleStoreRT.refresh .oauthError).state.storage = none ∧
    (sampleStoreRT.refresh .thrown).result = .error () ∧
    (sampleStoreRT.refresh .thrown).state = sampleStoreRT :=
  refresh_failure_semantics sampleStoreRT rfl

/-- C6: a request whose resolved origin differs from the protected API
origin passes through the authorization middleware unmodified — no
`Authorization` header is added — even when a valid token is held. -/
theorem origin_scoping_passthrough (baseOrigin urlOrigin : String)
    (accessToken : Option String) (opts : RequestOpts)
    (h : urlOrigin ≠ baseOrigin) :
    setAuthHeader baseOrigin accessToken urlOrigin opts = opts := by
  unfold setAuthHeader
  cases accessToken with
  | none => rfl
  | some token => simp [h]

/-- Witness for C6: a third-party origin with a valid token held and a
non-empty header list is passed through unchanged. -/
theorem origin_scoping_passthrough_witness :
    setAuthHeader "https://api.example.com" (some "tok-c")
        "https://evil.example.com" { headers := [("Accept", "application/json")] } =
      { headers := [("Accept", "application/json")] } :=
  origin_scoping_passthrough "https://api.example.com" "https://evil.example.com"
    (some "tok-c") { headers := [("Accept", "application/json")] } (by decide)

/-- A record whose expiration time has sub-second precision (1500 ms). -/
def sampleMsRecord : AuthInfo :=
  { tokenType := "Bearer", accessToken := "tok-e", expiresAt := some 1500 }

/-- A record with every field populated and a whole-second expiration. -/
def sampleSecRecord : AuthInfo :=
  { tokenType := "Bearer", accessToken := "tok-f", refreshToken := some "rt-f",
    expiresAt := some 2000, scope := some "a b", accountId := some "acct-1",
    email := some "user@example.com" }

/-- C9 counterexample: persisting encodes `expiresAt` as whole epoch
seconds (`Math.floor(ms / 1000)`), so a record whose expiration has
sub-second precision does not round-trip equal to itself — it comes back
floored to the second. -/
theorem persisted_roundtrip_counterexample :
    loadAuthInfo (saveAuthInfo (some sampleMsRecord)) =
      some { sampleMsRecord with expiresAt := some 1000 } ∧
    loadAuthInfo (saveAuthInfo (some sampleMsRecord)) ≠ some sampleMsRecord := by
  constructor
  · rfl
  · decide

/-- C9 amended: saving a record and loading it back is lossless in every
field — `tokenType`, `accessToken`, `refreshToken`, `expiresAt`, `scope`,
`accountId`, `email` — for every record whose expiration time is a whole
second (as every record the code itself constructs is, both parses and
token responses supplying epoch seconds); in general `expiresAt` is floored
to the second by the epoch-seconds encoding. -/
theorem persisted_roundtrip (a : AuthInfo)
    (h : ∀ ms, a.expiresAt = some ms → (1000 : Int) ∣ ms) :
    loadAuthInfo (saveAuthInfo (some a)) = some a := by
  obtain ⟨tT, aT, rT, eA, sC, aI, eM⟩ := a
  unfold loadAuthInfo saveAuthInfo createFromObject AuthInfo.toJSON AuthInfo.ofJSON
  cases eA with
  | none => rfl
  | some ms =>
    obtain ⟨k, rfl⟩ := h ms rfl
    simp [Int.mul_fdiv_cancel_left k (show (1000 : Int) ≠ 0 by norm_num),
      Int.mul_comm]

/-- Witness for the amended C9 at a fully-populated record with a
whole-second expiration. -/
theorem persisted_roundtrip_witness :
    loadAuthInfo (saveAuthInfo (some sampleSecRecord)) = some sampleSecRecord :=
  persisted_roundtrip sampleSecRecord
    (fun ms hms => by
      simp [sampleSecRecord] at hms
      subst hms
      decide)

/-- A currently-held record expiring at 2,000,000 ms. -/
def newerRecord : AuthInfo :=
  { tokenType := "Bearer", accessToken := "tok-new", refreshToken := some "rt-new",
    expiresAt := some 2000000 }

/-- A persisted-form record expiring earlier (1000 s = 1,000,000 ms). -/
def olderJSON : AuthInfoJSON :=
  { tokenType := "Bearer", accessToken := "tok-old", refreshToken := some "rt-old",
    expiresAt := some 1000 }

/-- A mailbox store currently holding `newerRecord`. -/
def mailboxNewer : MailboxAuthStore :=
  { authInfo := some newerRecord, storage := saveAuthInfo (some newerRecord) }

/-- C5 counterexample: the storage listener has no staleness guard — an
external-change notification carrying a strictly older (but unexpired)
record than the current in-memory one is adopted, replacing the newer
current record instead of being ignored. -/
theorem storage_event_counterexample :
    (AuthInfo.ofJSON olderJSON).expiresAt = some 1000000 ∧
    newerRecord.expiresAt = some 2000000 ∧
    (mailboxNewer.handleStorageEvent 0 LOCAL_STORAGE_KEY
        (some (StoredValue.record olderJSON))).authInfo
      = some (AuthInfo.ofJSON olderJSON) ∧
    AuthInfo.ofJSON olderJSON ≠ newerRecord := by
  refine ⟨rfl, rfl, rfl, by decide⟩

/-- C5 amended: an external-change notification under the auth storage key
carrying a record that parses and is not expired is adopted as the current
record regardless of whether it is newer than, identical to, or older than
the current in-memory record; an expired record or a malformed payload is
ignored. -/
theorem storage_event_adoption (now : Int) (s : MailboxAuthStore)
    (j : AuthInfoJSON) :
    ((AuthInfo.ofJSON j).getIsExpired now = false →
      s.handleStorageEvent now LOCAL_STORAGE_KEY (some (StoredValue.record j))
        = s.setAuthInfo (some (AuthInfo.ofJSON j))) ∧
    ((AuthInfo.ofJSON j).getIsExpired now = true →
      s.handleStorageEvent now LOCAL_STORAGE_KEY (some (StoredValue.record j)) = s) ∧
    s.handleStorageEvent now LOCAL_STORAGE_KEY (some StoredValue.malformed) = s := by
  unfold MailboxAuthStore.handleStorageEvent createFromObject
  refine ⟨fun h => ?_, fun h => ?_, ?_⟩
  · simp [h]
  · simp [h]
  · simp

/-- Witness for the amended C5: the concrete older-record notification is
adopted via `setAuthInfo`. -/
theorem storage_event_adoption_witness :
    mailboxNewer.handleStorageEvent 0 LOCAL_STORAGE_KEY
        (some (StoredValue.record olderJSON))
      = mailboxNewer.setAuthInfo (some (AuthInfo.ofJSON olderJSON)) :=
  (storage_event_adoption 0 mailboxNewer olderJSON).1 rfl

/-- A persisted expired record (10 s) with no refresh token. -/
def expiredNoRTJSON : AuthInfoJSON :=
  { tokenType := "Bearer", accessToken := "tok-old2", refreshToken := none,
    expiresAt := some 10 }

/-- A fresh mailbox store whose storage slot holds `expiredNoRTJSON`. -/
def mailboxStoredExpired : MailboxAuthStore :=
  { authInfo := none, storage := some (StoredValue.record expiredNoRTJSON) }

/-- C7 counterexample: at startup with an expired stored record carrying no
refresh token, `load()` makes no refresh attempt but also does not adopt
the stored record: the store is left empty and `load()` resolves `null`,
falsifying "otherwise the stored record is adopted as-is". -/
theorem load_counterexample :
    (AuthInfo.ofJSON expiredNoRTJSON).getIsExpired 1000000 = true ∧
    (AuthInfo.ofJSON expiredNoRTJSON).refreshToken = none ∧
    (MailboxAuthStore.load 1000000 (fun _ => none) mailboxStoredExpired).1.authInfo
      = none ∧
    (MailboxAuthStore.load 1000000 (fun _ => none) mailboxStoredExpired).2
      = (none, 0) :=
  ⟨rfl, rfl, rfl, rfl⟩

/-- C7 amended: for a stored record present at startup — if it is expired
and carries a refresh token, `load()` performs exactly one exchange and
adopts a successful result (leaving the store unchanged on failure); if it
is not expired it is adopted as-is with no exchange; if it is expired
without a refresh token it is discarded — not adopted — with no exchange,
and `load()` resolves `null`. -/
theorem load_semantics (now : Int) (exch : AuthInfo → Option AuthInfo)
    (s : MailboxAuthStore) (j : AuthInfoJSON)
    (hs : s.storage = some (StoredValue.record j)) :
    ((AuthInfo.ofJSON j).getIsExpired now = true →
      strTruthy (AuthInfo.ofJSON j).refreshToken = true →
        (MailboxAuthStore.load now exch s).2.2 = 1 ∧
        (∀ r, exch (AuthInfo.ofJSON j) = some r →
          (MailboxAuthStore.load now exch s).1.authInfo = some r ∧
          (MailboxAuthStore.load now exch s).2.1 = some r) ∧
        (exch (AuthInfo.ofJSON j) = none →
          (MailboxAuthStore.load now exch s).1 = s ∧
          (MailboxAuthStore.load now exch s).2.1 = none)) ∧
    ((AuthInfo.ofJSON j).getIsExpired now = false →
      (MailboxAuthStore.load now exch s).1.authInfo = some (AuthInfo.ofJSON j) ∧
      (MailboxAuthStore.load now exch s).2.1 = some (AuthInfo.ofJSON j) ∧
      (MailboxAuthStore.load now exch s).2.2 = 0) ∧
    ((AuthInfo.ofJSON j).getIsExpired now = true →
      strTruthy (AuthInfo.ofJSON j).refreshToken = false →
        (MailboxAuthStore.load now exch s) = (s, none, 0)) := by
  unfold MailboxAuthStore.load loadAuthInfo createFromObject refreshExchange
  rw [hs]
  refine ⟨fun hexp hrt => ?_, fun hexp => ?_, fun hexp hrt => ?_⟩
  · cases hres : exch (AuthInfo.ofJSON j) with
    | some r => simp [hexp, hrt, hres, MailboxAuthStore.setAuthInfo]
    | none => simp [hexp, hrt, hres]
  · simp [hexp, MailboxAuthStore.setAuthInfo]
  · simp [hexp, hrt]

/-- A persisted expired record (10 s) carrying a refresh token. -/
def expiredRTJSON : AuthInfoJSON :=
  { tokenType := "Bearer", accessToken := "tok-old3", refreshToken := some "rt-old3",
    expiresAt := some 10 }

/-- A fresh mailbox store whose storage slot holds `expiredRTJSON`. -/
def mailboxStoredExpRT : MailboxAuthStore :=
  { authInfo := none, storage := some (StoredValue.record expiredRTJSON) }

/-- A fresh record as returned by a successful startup refresh. -/
def freshRecord : AuthInfo :=
  { tokenType := "Bearer", accessToken := "tok-new3", refreshToken := some "rt-new3",
    expiresAt := some 5000000 }

/-- Witness for the amended C7: an expired stored record with a refresh
token triggers exactly one exchange and a successful result is adopted. -/
theorem load_semantics_witness :
    (MailboxAuthStore.load 1000000 (fun _ => some freshRecord)
        mailboxStoredExpRT).2.2 = 1 ∧
    (MailboxAuthStore.load 1000000 (fun _ => some freshRecord)
        mailboxStoredExpRT).1.authInfo = some freshRecord :=
  ⟨((load_semantics 1000000 (fun _ => some freshRecord) mailboxStoredExpRT
      expiredRTJSON rfl).1 rfl rfl).1,
   (((load_semantics 1000000 (fun _ => some freshRecord) mailboxStoredExpRT
      expiredRTJSON rfl).1 rfl rfl).2.1 freshRecord rfl).1⟩

/-- C8: with WebAuthn available, a saved credential id, and a fresh session
counter, two consecutive failed WebAuthn authentications return `false` and
increment the counter to the bound `WEBAUTHN_MAX_FAIL_COUNT = 2`; the next
`authenticate()` call then skips the WebAuthn ceremony entirely (zero
attempts) and, no other method remaining, resolves `null`, leaving the
state untouched. -/
theorem webauthn_bounded_retry (s : AccountStoreState)
    (hcred : s.getSavedWebAuthnCredentialId.isSome = true)
    (hcount : s.webAuthnFailCount = 0) :
    (s.authenticate true none).2 = (.failed, 1) ∧
    (((s.authenticate true none).1).authenticate true none).2 = (.failed, 1) ∧
    (((s.authenticate true none).1).authenticate true none).1.webAuthnFailCount
      = WEBAUTHN_MAX_FAIL_COUNT ∧
    ∀ (hasW : Bool) (outcome : Option AuthInfo),
      ((((s.authenticate true none).1).authenticate true none).1).authenticate
          hasW outcome
        = ((((s.authenticate true none).1).authenticate true none).1,
            .nullResult, 0) := by
  obtain ⟨cid, hcid, hemp⟩ :
      ∃ id, s.storedCredentialId = some id ∧ id.isEmpty = false := by
    unfold AccountStoreState.getSavedWebAuthnCredentialId at hcred
    cases hsc : s.storedCredentialId with
    | none => rw [hsc] at hcred; simp at hcred
    | some id =>
      rw [hsc] at hcred
      by_cases he : id.isEmpty = true
      · simp [he] at hcred
      · exact ⟨id, rfl, by simpa using he⟩
  have h1 : s.authenticate true none
      = ({ s with webAuthnFailCount := 1 }, .failed, 1) := by
    unfold AccountStoreState.authenticate AccountStoreState.getSavedWebAuthnCredentialId
    simp [hcid, hemp, hcount, WEBAUTHN_MAX_FAIL_COUNT]
  have h2 : ({ s with webAuthnFailCount := 1 } : AccountStoreState).authenticate
        true none
      = ({ s with webAuthnFailCount := 2, storedCredentialId := none },
          .failed, 1) := by
    unfold AccountStoreState.authenticate AccountStoreState.getSavedWebAuthnCredentialId
    simp [hcid, hemp, WEBAUTHN_MAX_FAIL_COUNT]
  have h3 : ∀ (hasW : Bool) (outcome : Option AuthInfo),
      ({ s with webAuthnFailCount := 2, storedCredentialId := none } :
          AccountStoreState).authenticate hasW outcome
        = ({ s with webAuthnFailCount := 2, storedCredentialId := none },
            .nullResult, 0) := by
    intro hasW outcome
    unfold AccountStoreState.authenticate
    simp [WEBAUTHN_MAX_FAIL_COUNT]
  have e1 : (s.authenticate true none).1 = { s with webAuthnFailCount := 1 } := by
    rw [h1]
  have e2 : (({ s with webAuthnFailCount := 1 } : AccountStoreState).authenticate
        true none).1
      = { s with webAuthnFailCount := 2, storedCredentialId := none } := by
    rw [h2]
  refine ⟨by rw [h1], ?_, ?_, ?_⟩
  · rw [e1, h2]
  · rw [e1, e2]
    rfl
  · intro hasW outcome
    rw [e1, e2, h3]

/-- An account store with a saved WebAuthn credential id and a fresh
session failure counter. -/
def sampleAccountStore : AccountStoreState := { storedCredentialId := some "cred-1" }

/-- Witness for C8 at `sampleAccountStore`: two failures, then the third
call performs no ceremony and resolves `null`. -/
theorem webauthn_bounded_retry_witness :
    (sampleAccountStore.authenticate true none).2 = (.failed, 1) ∧
    (((sampleAccountStore.authenticate true none).1).authenticate true none).2
      = (.failed, 1) ∧
    ((((sampleAccountStore.authenticate true none).1).authenticate true none).1).authenticate
        true none
      = ((((sampleAccountStore.authenticate true none).1).authenticate true none).1,
          .nullResult, 0) :=
  ⟨(webauthn_bounded_retry sampleAccountStore rfl rfl).1,
   (webauthn_bounded_retry sampleAccountStore rfl rfl).2.1,
   (webauthn_bounded_retry sampleAccountStore rfl rfl).2.2.2 true none⟩

/-- Once every queued operation's bail-out guard holds (the current record
is absent or carries a different access token than the caller's), a run of
queued `attemptRefresh` operations leaves the state unchanged, sends no
exchange request, and returns the current record to every caller. -/
theorem runAttempts_bail (exch : AuthInfo → Option AuthInfo) (t : AuthInfo)
    (m : Nat) (s : MailboxAuthStore)
    (h : ∀ cur, s.authInfo = some cur → cur.accessToken ≠ t.accessToken) :
    runAttempts exch t m s = (s, List.replicate m s.authInfo, 0) := by
  induction m with
  | zero => rfl
  | succ n ih =>
    have hstep : attemptRefreshOp exch t s = (s, s.authInfo, 0) := by
      unfold attemptRefreshOp
      cases hcur : s.authInfo with
      | none => simp
      | some cur => simp [h cur hcur]
    simp only [runAttempts, hstep, ih, List.replicate_succ]

/-- The record held while the 401s were observed. -/
def tokenA : AuthInfo :=
  { tokenType := "Bearer", accessToken := "at-1", refreshToken := some "rt-1" }

/-- A rotated record with a different access token. -/
def tokenB : AuthInfo :=
  { tokenType := "Bearer", accessToken := "at-2", refreshToken := some "rt-2" }

/-- A mailbox store currently holding `tokenA`. -/
def mailboxTokenA : MailboxAuthStore :=
  { authInfo := some tokenA, storage := saveAuthInfo (some tokenA) }

/-- C1 counterexample: deduplication of queued refreshes compares access
token values, so when the provider's exchange answers with a record bearing
the *same* access token value, two concurrent `attemptRefresh` calls on
the current token send two exchange requests, not one. -/
theorem concurrent_refresh_counterexample :
    mailboxTokenA.authInfo = some tokenA ∧
    (runAttempts (fun _ => some tokenA) tokenA 2 mailboxTokenA).2.2 = 2 :=
  ⟨rfl, rfl⟩

/-- C1 amended: for `n + 1 ≥ 1` concurrent `attemptRefresh` calls queued
while record `t` — carrying a refresh token — is current, *provided* the
exchange outcome is a failure or a record whose access token differs from
`t`'s, exactly one exchange request is sent, every caller observes that
single exchange's outcome, and the store ends holding it. -/
theorem concurrent_refresh_single_exchange (exch : AuthInfo → Option AuthInfo)
    (t : AuthInfo) (s : MailboxAuthStore) (n : Nat)
    (hcur : s.authInfo = some t)
    (hrt : strTruthy t.refreshToken = true)
    (hrot : ∀ r, exch t = some r → r.accessToken ≠ t.accessToken) :
    (runAttempts exch t (n + 1) s).2.2 = 1 ∧
    (runAttempts exch t (n + 1) s).2.1 = List.replicate (n + 1) (exch t) ∧
    (runAttempts exch t (n + 1) s).1.authInfo = exch t := by
  have hstep : attemptRefreshOp exch t s = (s.setAuthInfo (exch t), exch t, 1) := by
    unfold attemptRefreshOp refreshExchange
    simp [hcur, hrt]
  have hbail : ∀ cur, (s.setAuthInfo (exch t)).authInfo = some cur →
      cur.accessToken ≠ t.accessToken := by
    intro cur hc
    have hsome : exch t = some cur := by
      simpa [MailboxAuthStore.setAuthInfo] using hc
    exact hrot cur hsome
  have hrest := runAttempts_bail exch t n (s.setAuthInfo (exch t)) hbail
  refine ⟨?_, ?_, ?_⟩ <;>
  · simp only [runAttempts, hstep]
    rw [hrest]
    simp [MailboxAuthStore.setAuthInfo, List.replicate_succ]

/-- Witness for the amended C1: three concurrent attempts on `tokenA` with
a rotating exchange send one request and all observe the new record. -/
theorem concurrent_refresh_single_exchange_witness :
    (runAttempts (fun _ => some tokenB) tokenA 3 mailboxTokenA).2.2 = 1 ∧
    (runAttempts (fun _ => some tokenB) tokenA 3 mailboxTokenA).2.1
      = List.replicate 3 (some tokenB) ∧
    (runAttempts (fun _ => some tokenB) tokenA 3 mailboxTokenA).1.authInfo
      = some tokenB :=
  concurrent_refresh_single_exchange (fun _ => some tokenB) tokenA mailboxTokenA 2
    rfl rfl
    (fun r hr => by
      have hrB : tokenB = r := by simpa using hr
      subst hrB
      decide)

end Registration
